import Mathlib

/-!
Verification development for the `just-schedule-it` calendar assistant backend
(`backend/calendar_api.py` and `backend/app.py`).

The Python source is shallowly embedded: naive `datetime` values become a
record of a day number (days since an epoch whose day 0 is a Monday, matching
`datetime.weekday()` where Monday = 0) together with hour/minute/second
fields; `timedelta` arithmetic becomes integer-second arithmetic with floor
division; exceptions become `Except`; remote Google Calendar state becomes an
explicit event-list store threaded through the executors.
-/

/-- A naive Python `datetime`, reduced to the fields the code manipulates:
`day` counts days since an epoch chosen so that `day ≡ 0 [ZMOD 7]` is a
Monday (`datetime.weekday() = 0`). -/
structure DateTime where
  day : Int
  hour : Nat
  minute : Nat
  second : Nat
deriving DecidableEq, Repr

/-- Total seconds represented by a naive datetime (for `timedelta` arithmetic). -/
def toSeconds (d : DateTime) : Int :=
  d.day * 86400 + d.hour * 3600 + d.minute * 60 + d.second

/-- Rebuild a normalized datetime from a second count (floor division, as
Python's `timedelta` normalization does). -/
def ofSeconds (s : Int) : DateTime :=
  { day := s / 86400
  , hour := ((s % 86400) / 3600).toNat
  , minute := ((s % 86400 % 3600) / 60).toNat
  , second := (s % 86400 % 3600 % 60).toNat }

/-- `dt + timedelta(days=n)`. -/
def addDays (d : DateTime) (n : Int) : DateTime :=
  { d with day := d.day + n }

/-- `dt + timedelta(seconds=n)`. -/
def addSeconds (d : DateTime) (n : Int) : DateTime :=
  ofSeconds (toSeconds d + n)

/-- `dt + timedelta(hours=n)`. -/
def addHours (d : DateTime) (n : Nat) : DateTime :=
  addSeconds d (3600 * n)

/-- Python `datetime.weekday()`: Monday = 0 … Sunday = 6.  With the epoch
convention of `DateTime`, this is the day number mod 7 (`Int.emod`, which like
Python's `%` is non-negative for a positive modulus). -/
def weekday (d : DateTime) : Int :=
  d.day % 7

/-- Python `datetime.replace(hour=h, minute=m, second=0, microsecond=0)`:
validates the field ranges and raises `ValueError` otherwise. -/
def replaceTime (d : DateTime) (h m : Nat) : Except String DateTime :=
  if h > 23 then .error "hour must be in 0..23"
  else if m > 59 then .error "minute must be in 0..59"
  else .ok { d with hour := h, minute := m, second := 0 }

theorem toSeconds_ofSeconds (s : Int) : toSeconds (ofSeconds s) = s := by
  unfold toSeconds ofSeconds
  simp only
  omega

theorem toSeconds_addSeconds (d : DateTime) (n : Int) :
    toSeconds (addSeconds d n) = toSeconds d + n := by
  unfold addSeconds
  exact toSeconds_ofSeconds _

/-! ### Python string primitives

The Python code manipulates strings with `.lower()`, `.strip()`, `.split()`
and the substring operator `in`.  These are embedded over `List Char`
(`String.data`) so that every definition evaluates by kernel reduction. -/

/-- Python `str.lower()` (ASCII case folding suffices for this code base). -/
def pyLower (l : List Char) : List Char := l.map Char.toLower

/-- Python `str.strip()`: remove leading and trailing whitespace. -/
def pyStrip (l : List Char) : List Char :=
  ((l.dropWhile Char.isWhitespace).reverse.dropWhile Char.isWhitespace).reverse

/-- Python `a in b` for strings: `a` occurs as a contiguous substring of `b`
(the empty string is a substring of everything). -/
def strContains (a : List Char) : List Char → Bool
  | [] => a.isEmpty
  | c :: t => a.isPrefixOf (c :: t) || strContains a t

/-- Worker for `pySplitWs`. -/
def splitWsAux : List Char → List Char → List (List Char)
  | [], acc => if acc = [] then [] else [acc.reverse]
  | c :: t, acc =>
    if c.isWhitespace then
      (if acc = [] then splitWsAux t [] else acc.reverse :: splitWsAux t [])
    else splitWsAux t (c :: acc)

/-- Python `str.split()` with no argument: split on runs of whitespace,
discarding empty pieces. -/
def pySplitWs (l : List Char) : List (List Char) := splitWsAux l []

/-- Numeric value of a digit character. -/
def digitVal (c : Char) : Nat := c.toNat - 48

/-- Python truthiness of a possibly missing string (`None` and `""` are
falsy): the test `if title:` / `if new_end_time:` the source uses on
optional string values. -/
def pyTruthy : Option String → Bool
  | some s => !(s == "")
  | none => false

/-! ### Time Resolver (`calendar_api.parse_date_time`) -/

/-- The regex `(\d{1,2})(?::(\d{2}))?\s*(am|pm)?` applied with `re.match` to
an already lowercased, stripped time string.  Returns
`(hour, minute, meridiem)` where `meridiem` is `some false` for `am`,
`some true` for `pm`.  The match fails only when the string does not start
with a digit (every other component of the pattern is optional). -/
def parseTimeMatch : List Char → Option (Nat × Nat × Option Bool)
  | [] => none
  | c1 :: rest =>
    if c1.isDigit then
      let hm : Nat × List Char :=
        match rest with
        | c2 :: rest2 =>
          if c2.isDigit then (digitVal c1 * 10 + digitVal c2, rest2) else (digitVal c1, rest)
        | [] => (digitVal c1, [])
      let mm : Nat × List Char :=
        match hm.2 with
        | ':' :: d1 :: d2 :: r =>
          if d1.isDigit && d2.isDigit then (digitVal d1 * 10 + digitVal d2, r) else (0, hm.2)
        | _ => (0, hm.2)
      let rest3 := mm.2.dropWhile Char.isWhitespace
      let ampm : Option Bool :=
        match rest3 with
        | 'a' :: 'm' :: _ => some false
        | 'p' :: 'm' :: _ => some true
        | _ => none
      some (hm.1, mm.1, ampm)
    else none

/-- The 12h → 24h conversion of `parse_date_time`:
`pm` adds 12 unless the hour is 12; `12am` becomes 0. -/
def adjustHour (h : Nat) (ampm : Option Bool) : Nat :=
  if ampm = some true ∧ h ≠ 12 then h + 12
  else if ampm = some false ∧ h = 12 then 0
  else h

/-- The date-resolution chain of `parse_date_time`.  `g` stands for the
external `dateutil.parser.parse`, returning `none` when it would raise (the
bare `except` in the source turns any failure into "default to today"). -/
def resolveDate (g : String → Option DateTime) (now : DateTime) (date_str : String) : DateTime :=
  let dl := pyStrip (pyLower date_str.data)
  if dl = "today".data then now
  else if dl = "tomorrow".data then addDays now 1
  else if dl = "yesterday".data then addDays now (-1)
  else if dl ∈ ["monday".data, "mon".data] then addDays now ((0 - weekday now) % 7)
  else if dl ∈ ["tuesday".data, "tue".data] then addDays now ((1 - weekday now) % 7)
  else if dl ∈ ["wednesday".data, "wed".data] then addDays now ((2 - weekday now) % 7)
  else if dl ∈ ["thursday".data, "thu".data] then addDays now ((3 - weekday now) % 7)
  else if dl ∈ ["friday".data, "fri".data] then addDays now ((4 - weekday now) % 7)
  else if dl ∈ ["saturday".data, "sat".data] then addDays now ((5 - weekday now) % 7)
  else if dl ∈ ["sunday".data, "sun".data] then addDays now ((6 - weekday now) % 7)
  else
    match g date_str with
    | some d => d
    | none => now

/-- The time-handling branch of `parse_date_time`: apply the regex to the
lowercased, stripped time string, convert to 24h, and `replace` the time
fields on the resolved date; an absent or unmatched time defaults to
12:00 noon. -/
def timeBranch (event_date : DateTime) (time_str : Option String) :
    Except String DateTime :=
  match time_str with
  | some ts =>
    match parseTimeMatch (pyStrip (pyLower ts.data)) with
    | some (h, m, ap) => replaceTime event_date (adjustHour h ap) m
    | none => replaceTime event_date 12 0
  | none => replaceTime event_date 12 0

/-- `calendar_api.parse_date_time(date_str, time_str)`.  The `Except` models
the Python exception channel: the only uncaught raise is the `ValueError`
from `datetime.replace` when a matched time is out of range. -/
def parse_date_time (g : String → Option DateTime) (now : DateTime)
    (date_str : String) (time_str : Option String) : Except String (DateTime × DateTime) :=
  let event_date := resolveDate g now date_str
  match timeBranch event_date time_str with
  | .ok s => .ok (s, addHours s 1)
  | .error e => .error e

/-! ### Event timestamps and the Presentation Formatter -/

/-- A Google Calendar event boundary: all-day events carry a `date` only
(no time component, i.e. no `T` in the serialized string); timed events
carry a `dateTime`, possibly with a UTC offset (seconds). -/
inductive TS where
  | dateOnly (day : Int)
  | dateTime (dt : DateTime) (offset : Option Int)
deriving DecidableEq, Repr

/-- `datetime.fromisoformat` on an event boundary: a date-only string parses
to midnight of that day. -/
def tsToDateTime : TS → DateTime
  | .dateOnly d => ⟨d, 0, 0, 0⟩
  | .dateTime dt _ => dt

/-- `"%02d"`-style minutes. -/
def twoDigit (n : Nat) : String := if n < 10 then "0" ++ toString n else toString n

/-- `strftime('%-I:%M %p')`: 12-hour clock with no leading zero on the hour
(the Windows fallback in the source produces the identical string). -/
def formatTimeAmPm (dt : DateTime) : String :=
  let h12 := dt.hour % 12
  let dh := if h12 = 0 then 12 else h12
  let ap := if dt.hour < 12 then "AM" else "PM"
  toString dh ++ ":" ++ twoDigit dt.minute ++ " " ++ ap

/-- `calendar_api.format_time_range`: returns "All day" when the START
string has no `T`; otherwise formats both endpoints (a date-only END parses
to midnight and is formatted as a time). -/
def format_time_range (s e : TS) : String :=
  match s with
  | .dateOnly _ => "All day"
  | .dateTime sdt _ => formatTimeAmPm sdt ++ " - " ++ formatTimeAmPm (tsToDateTime e)

/-! ### Event Matcher (`calendar_api.search_events`) -/

/-- A remote calendar event.  The field `stop` models the JSON key `end`
(a Lean keyword). -/
structure CalEvent where
  id : String
  summary : Option String
  start : TS
  stop : TS
  location : Option String
deriving DecidableEq, Repr

/-- The remote store (`calendarId='primary'`). -/
structure Store where
  events : List CalEvent
deriving DecidableEq, Repr

/-- The fuzzy title filter of `search_events`: split the lowercased query
and the lowercased event title into whitespace-separated words; match if any
word of one contains any word of the other as a substring.  (The source
builds Python `set`s of the words and scans with early `break`; existence of
a matching pair is unaffected by set deduplication and order.) -/
def titleMatchWords (query_lower event_title_lower : List Char) : Bool :=
  (pySplitWs query_lower).any fun search_word =>
    (pySplitWs event_title_lower).any fun event_word =>
      strContains search_word event_word || strContains event_word search_word

/-- Target-time extraction (`search_events` lines 335-352 and the identical
block in `list_events`): same regex and 12h conversion as the Time Resolver;
an unmatched time string leaves the filter off. -/
def parseTargetTime (time_str : String) : Option (Nat × Nat) :=
  match parseTimeMatch (pyStrip (pyLower time_str.data)) with
  | some (h, m, ap) => some (adjustHour h ap, m)
  | none => none

/-- The per-event time filter: with a target set, keep only timed events
starting at exactly that hour and minute; all-day events never match. -/
def timeKeep (target : Option (Nat × Nat)) (ev : CalEvent) : Bool :=
  match target with
  | none => true
  | some (th, tm) =>
    match ev.start with
    | .dateTime dt _ => dt.hour == th && dt.minute == tm
    | .dateOnly _ => false

/-- The per-event title filter: the loop runs the word matching only under
`if title:` — a missing OR empty query applies no title filter; otherwise
`event.get('summary', '').lower()` is matched against the lowercased
query. -/
def titleKeep (title : Option String) (ev : CalEvent) : Bool :=
  if pyTruthy title then
    titleMatchWords (pyLower (title.getD "").data) (pyLower (ev.summary.getD "").data)
  else true

/-- The combined filter of the `search_events` loop. -/
def eventKeep (title : Option String) (target : Option (Nat × Nat)) (ev : CalEvent) : Bool :=
  titleKeep title ev && timeKeep target ev

/-- One entry of the list `search_events` returns. -/
structure MatchItem where
  id : String
  title : String
  start : TS
  stop : TS
  time : String
deriving DecidableEq, Repr

/-- The record `search_events` appends for a matching event. -/
def mkMatchItem (ev : CalEvent) : MatchItem :=
  { id := ev.id
  , title := ev.summary.getD "Untitled"
  , start := ev.start
  , stop := ev.stop
  , time := format_time_range ev.start ev.stop }

/-- `calendar_api.search_events`.  The remote window query (the requested
day in the user timezone when a date is given, else now through +30 days)
is performed by Google; it is modelled by the caller supplying `fetched`,
the events the remote returned for that window, ordered by start time. -/
def search_events (fetched : List CalEvent) (title : Option String)
    (time_str : Option String) : List MatchItem :=
  (fetched.filter (eventKeep title (time_str.bind parseTargetTime))).map mkMatchItem

/-! ### Action Executor (`calendar_api.delete_event` / `move_event` / `list_events`) -/

/-- The `event` summary dictionary returned by create/move (fields read with
`.get('dateTime')`, hence optional). -/
structure EventSummary where
  id : String
  title : Option String
  start : Option TS
  stop : Option TS
deriving DecidableEq, Repr

/-- One formatted entry of the `list_events` response. -/
structure ListItem where
  id : String
  title : String
  start : TS
  stop : TS
  time : String
  location : String
deriving DecidableEq, Repr

/-- The executor result dictionary.  Absent Python keys are modelled by
`none` / `false` / `[]`, matching what `dict.get` returns for them. -/
structure ExecResult where
  success : Bool
  message : String
  event : Option EventSummary
  multiple_matches : Option (List MatchItem)
  needs_confirmation : Bool
  events : List ListItem
deriving DecidableEq, Repr

/-- A failure result carrying only a message. -/
def failResult (msg : String) : ExecResult :=
  { success := false, message := msg, event := none, multiple_matches := none
  , needs_confirmation := false, events := [] }

/-- The `event_query` dictionary passed to delete/move. -/
structure EventQuery where
  event_id : Option String
  title : Option String
  date : Option String
  time : Option String
deriving DecidableEq, Repr

/-- `service.events().get`: look an event up by id. -/
def Store.findEv (st : Store) (eid : String) : Option CalEvent :=
  st.events.find? (fun e => e.id == eid)

/-- `service.events().delete`: remove an event by id. -/
def Store.deleteId (st : Store) (eid : String) : Store :=
  ⟨st.events.filter (fun e => !(e.id == eid))⟩

/-- `service.events().update`: replace the event with the same id. -/
def Store.updateEv (st : Store) (ev : CalEvent) : Store :=
  ⟨st.events.map (fun e => if e.id == ev.id then ev else e)⟩

/-- The zero-match message of delete/move: distinguishes a time-specific
miss from the generic one. -/
def noMatchMessage (q : EventQuery) : String :=
  match q.time with
  | some t => "No events found at " ++ t ++ (match q.date with | some d => " on " ++ d | none => "")
  | none => "No matching events found"

/-- `calendar_api.delete_event`.  Returns the result together with the store
after the call (unchanged when nothing was deleted).  `fetched` is the
window of events the remote returned to the inner `search_events` call. -/
def delete_event (st : Store) (fetched : List CalEvent) (q : EventQuery) :
    ExecResult × Store :=
  match q.event_id with
  | some eid =>
    match st.findEv eid with
    | some _ =>
      ({ success := true, message := "Event deleted successfully", event := none
       , multiple_matches := none, needs_confirmation := false, events := [] }
      , st.deleteId eid)
    | none => (failResult "Failed to delete event: Not Found", st)
  | none =>
    match search_events fetched q.title q.time with
    | [] => (failResult (noMatchMessage q), st)
    | [m] =>
      match st.findEv m.id with
      | some _ =>
        ({ success := true
         , message := "Event \x22" ++ m.title ++ "\x22 deleted successfully"
         , event := none, multiple_matches := none, needs_confirmation := false, events := [] }
        , st.deleteId m.id)
      | none => (failResult "Error searching for events: Not Found", st)
    | m1 :: m2 :: rest =>
      ({ success := false
       , message := "Found " ++ toString (m1 :: m2 :: rest).length ++
           " matching events. Please specify which one:"
       , event := none, multiple_matches := some (m1 :: m2 :: rest)
       , needs_confirmation := true, events := [] }
      , st)

/-- Aware/naive `datetime` subtraction in seconds.  Mixing an
offset-carrying operand with a naive one raises `TypeError` in Python
(`none` here). -/
def tsubAware (a b : DateTime × Option Int) : Option Int :=
  match a.2, b.2 with
  | none, none => some (toSeconds a.1 - toSeconds b.1)
  | some oa, some ob => some ((toSeconds a.1 - oa) - (toSeconds b.1 - ob))
  | _, _ => none

/-- `event['start'].get('dateTime')`: the timed boundary, or `none` for an
all-day event. -/
def getDT : TS → Option (DateTime × Option Int)
  | .dateTime dt off => some (dt, off)
  | .dateOnly _ => none

/-- `parse_date_time` invoked on a possibly missing date (`move` passes
`parsed_data.get('new_date')`, which may be `None`; `None.lower()` raises
`AttributeError`). -/
def parse_date_time_opt (g : String → Option DateTime) (now : DateTime)
    (d : Option String) (t : Option String) : Except String (DateTime × DateTime) :=
  match d with
  | some ds => parse_date_time g now ds t
  | none => .error "AttributeError"

/-- The new-times computation of `move_event` (the identical block appears
on the confirmed-id path, lines 669-694, and on the single-match path,
lines 760-785): priority is (1) explicit new end time, (2) the original
duration applied to the new start, (3) the default start + 1 hour when the
original boundaries are not both timed.  The explicit-end branch is gated by
Python truthiness (`if new_end_time:`): a missing OR empty new end time
counts as absent. -/
def computeNewTimes (g : String → Option DateTime) (now : DateTime) (ev : CalEvent)
    (new_date new_time new_end_time : Option String) :
    Except String (DateTime × DateTime) :=
  match parse_date_time_opt g now new_date new_time with
  | .error e => .error e
  | .ok (new_start, default_new_end) =>
    if pyTruthy new_end_time then
      match parse_date_time_opt g now new_date new_end_time with
      | .error e => .error e
      | .ok (custom_new_end, _) => .ok (new_start, custom_new_end)
    else
      match getDT ev.start, getDT ev.stop with
      | some os, some oe =>
        match tsubAware oe os with
        | some duration => .ok (new_start, addSeconds new_start duration)
        | none => .error "TypeError"
      | _, _ => .ok (new_start, default_new_end)

/-- Python renders `None` in an f-string. -/
def optStr : Option String → String
  | some s => s
  | none => "None"

/-- The updated-event summary returned by `move_event`. -/
def moveSummary (ev : CalEvent) : EventSummary :=
  { id := ev.id, title := ev.summary
  , start := (match ev.start with | .dateTime dt off => some (.dateTime dt off) | .dateOnly _ => none)
  , stop := (match ev.stop with | .dateTime dt off => some (.dateTime dt off) | .dateOnly _ => none) }

/-- `calendar_api.move_event`.  `fetched` as in `delete_event`. -/
def move_event (g : String → Option DateTime) (now : DateTime) (st : Store)
    (fetched : List CalEvent) (q : EventQuery)
    (new_date new_time new_end_time : Option String) : ExecResult × Store :=
  match q.event_id with
  | some eid =>
    match st.findEv eid with
    | none => (failResult "Failed to move event: Not Found", st)
    | some ev =>
      match computeNewTimes g now ev new_date new_time new_end_time with
      | .error e => (failResult ("Failed to move event: " ++ e), st)
      | .ok (ns, ne) =>
        let ev2 := { ev with start := TS.dateTime ns none, stop := TS.dateTime ne none }
        ({ success := true
         , message := "Event moved to " ++ optStr new_date ++
             (match new_time with | some t => " at " ++ t | none => "")
         , event := some (moveSummary ev2), multiple_matches := none
         , needs_confirmation := false, events := [] }
        , st.updateEv ev2)
  | none =>
    match search_events fetched q.title q.time with
    | [] => (failResult (noMatchMessage q), st)
    | [m] =>
      match st.findEv m.id with
      | none => (failResult "Error searching for events: Not Found", st)
      | some ev =>
        match computeNewTimes g now ev new_date new_time new_end_time with
        | .error e => (failResult ("Error searching for events: " ++ e), st)
        | .ok (ns, ne) =>
          let ev2 := { ev with start := TS.dateTime ns none, stop := TS.dateTime ne none }
          ({ success := true
           , message := "Event \x22" ++ optStr ev2.summary ++ "\x22 moved successfully"
           , event := some (moveSummary ev2), multiple_matches := none
           , needs_confirmation := false, events := [] }
          , st.updateEv ev2)
    | m1 :: m2 :: rest =>
      ({ success := false
       , message := "Found " ++ toString (m1 :: m2 :: rest).length ++
           " matching events. Please specify which one:"
       , event := none, multiple_matches := some (m1 :: m2 :: rest)
       , needs_confirmation := true, events := [] }
      , st)

/-- The record `list_events` appends per event. -/
def mkListItem (ev : CalEvent) : ListItem :=
  { id := ev.id
  , title := ev.summary.getD "Untitled"
  , start := ev.start
  , stop := ev.stop
  , time := format_time_range ev.start ev.stop
  , location := ev.location.getD "" }

/-- `calendar_api.list_events`: filter the fetched window by exact start
time (same regex and exclusion of all-day events as the matcher) and shape
the response; an empty result is still `success=true`. -/
def list_events (fetched : List CalEvent) (date_query time_query : Option String) :
    ExecResult :=
  let target := time_query.bind parseTargetTime
  let formatted := (fetched.filter (timeKeep target)).map mkListItem
  if formatted.isEmpty then
    { success := true
    , message :=
        (match time_query with
         | some tq => "No events found at " ++ tq ++
             (match date_query with | some d => " on " ++ d | none => "")
         | none => "No events found for " ++ (date_query.getD "the next 7 days"))
    , event := none, multiple_matches := none, needs_confirmation := false, events := [] }
  else
    { success := true, message := "Found " ++ toString formatted.length ++ " event(s)"
    , event := none, multiple_matches := none, needs_confirmation := false
    , events := formatted }

/-! ### Conversational Response Generator (`app.generate_conversational_response`)

The helpers `format_date_conversational` and `format_time_conversational`
are pure string formatters whose internals are irrelevant to the claims
below; they are taken as parameters (`fdStr`/`ftStr` for the
natural-language inputs from `parsed_data`, `fdTs`/`ftTs` for the ISO event
boundaries).  The branch structure of the generator itself is embedded
faithfully. -/

/-- The parsed intent dictionary (`parsed_data`). -/
structure ParsedData where
  title : Option String
  date : Option String
  time : Option String
  end_time : Option String
  new_date : Option String
  new_time : Option String
  new_end_time : Option String
deriving DecidableEq, Repr

/-- `a or b` for Python strings: `b` when `a` is missing or empty. -/
def orStr (a : Option String) (b : String) : String :=
  match a with
  | some s => if s == "" then b else s
  | none => b

/-- `str.strip()` on a `String`. -/
def pyStripStr (s : String) : String := ⟨pyStrip s.data⟩

/-- One numbered line of the multi-match prompt. -/
def multiMatchLine (ftTs : TS → String) (i : Nat) (m : MatchItem) : String :=
  toString i ++ ". " ++ m.title ++
    (if !(m.time == "") then " (" ++ m.time ++ ")\n"
     else match m.start with
          | .dateTime dt off => " at " ++ ftTs (.dateTime dt off) ++ "\n"
          | .dateOnly _ => "\n")

/-- The numbered disambiguation prompt (lines 234-254 of `app.py`). -/
def multiMatchPrompt (ftTs : TS → String) (ms : List MatchItem) : String :=
  pyStripStr ("I found multiple matches - which one did you mean?\n\n" ++
    String.join (ms.enum.map (fun p => multiMatchLine ftTs (p.1 + 1) p.2)) ++
    "\nType 1, 2, 3... to select, or type a new command to cancel.")

/-- The "nothing found" special-casing of the failure branch. -/
def noEventsReply (fdStr ftStr : String → String) (p : ParsedData) : String :=
  if pyTruthy p.time && pyTruthy p.date then
    let date_formatted := fdStr (p.date.getD "")
    let time_formatted := ftStr (p.time.getD "")
    if pyTruthy p.title then
      "Sorry, I couldn\x27t find \x27" ++ p.title.getD "" ++ "\x27 at " ++
        time_formatted ++ " on " ++ date_formatted
    else
      "You have nothing scheduled at " ++ time_formatted ++ " on " ++ date_formatted
  else if pyTruthy p.date then
    let date_formatted := fdStr (p.date.getD "")
    if pyTruthy p.title then
      "Sorry, I couldn\x27t find \x27" ++ p.title.getD "" ++ "\x27 on " ++ date_formatted
    else
      "You have nothing scheduled for " ++ date_formatted
  else
    "Sorry, I couldn\x27t find any matching events"

/-- One bullet of the list reply. -/
def listLine (ftTs : TS → String) (e : ListItem) : String :=
  if !(e.time == "") then "• " ++ e.time ++ " - " ++ e.title ++ "\n"
  else match e.start with
       | .dateTime dt off => "• " ++ ftTs (.dateTime dt off) ++ " - " ++ e.title ++ "\n"
       | .dateOnly _ => "• " ++ e.title ++ "\n"

/-- `app.generate_conversational_response`. -/
def generate_conversational_response (fdStr ftStr : String → String)
    (fdTs ftTs : TS → String) (action : String) (p : ParsedData) (r : ExecResult) :
    String :=
  if r.success = false then
    (if r.needs_confirmation &&
        (match r.multiple_matches with | some (_ :: _) => true | _ => false) then
      multiMatchPrompt ftTs (r.multiple_matches.getD [])
    else if strContains "No events found".data r.message.data ||
            strContains "No matching events found".data r.message.data then
      noEventsReply fdStr ftStr p
    else
      "Sorry, " ++ r.message)
  else if action = "create" then
    let title := orStr (r.event.bind EventSummary.title) (p.title.getD "Event")
    match r.event.bind EventSummary.start with
    | some startTs =>
      "✓ Done! \x27" ++ title ++ "\x27 scheduled for " ++ fdTs startTs ++
        " at " ++ ftTs startTs
    | none =>
      let date_formatted := if pyTruthy p.date then fdStr (p.date.getD "") else "today"
      let time_formatted := if pyTruthy p.time then ftStr (p.time.getD "") else "12:00 PM"
      "✓ Done! \x27" ++ title ++ "\x27 scheduled for " ++ date_formatted ++
        " at " ++ time_formatted
  else if action = "delete" then
    let title := orStr (r.event.bind EventSummary.title) (p.title.getD "Event")
    let date_formatted := if pyTruthy p.date then fdStr (p.date.getD "") else ""
    if !(date_formatted == "") then
      "✓ Done! \x27" ++ title ++ "\x27 on " ++ date_formatted ++ " has been cancelled"
    else
      "✓ Done! \x27" ++ title ++ "\x27 has been cancelled"
  else if action = "move" then
    let title := orStr (r.event.bind EventSummary.title) (p.title.getD "Event")
    let date_formatted := if pyTruthy p.new_date then fdStr (p.new_date.getD "") else ""
    let time_formatted := if pyTruthy p.new_time then ftStr (p.new_time.getD "") else ""
    if !(date_formatted == "") && !(time_formatted == "") then
      "✓ Done! \x27" ++ title ++ "\x27 moved to " ++ date_formatted ++
        " at " ++ time_formatted
    else if !(date_formatted == "") then
      "✓ Done! \x27" ++ title ++ "\x27 moved to " ++ date_formatted
    else
      "✓ Done! \x27" ++ title ++ "\x27 has been rescheduled"
  else if action = "list" then
    if r.events.isEmpty then
      "You have nothing scheduled for " ++
        (if pyTruthy p.date then fdStr (p.date.getD "") else "that time")
    else
      pyStripStr
        ("Here\x27s what you have on " ++
          (if pyTruthy p.date then fdStr (p.date.getD "") else "your schedule") ++
          ":\n\n" ++ String.join (r.events.map (listLine ftTs)))
  else
    r.message

/-! ### Confirmation State Machine (`app.handle_message`, lines 664-737) -/

/-- The pending disambiguation stored in the session.  The field
`matchList` models the session key `matches` (a Lean keyword). -/
structure PendingAction where
  action : String
  parsed_data : ParsedData
  matchList : List MatchItem
deriving DecidableEq, Repr

/-- The regex `^(?:option\s+)?(\d)(?:st|nd|rd|th)?$` applied to the
lowercased message: an optional `option` + whitespace prefix, a single
digit, an optional ordinal suffix, end of string. -/
def selectionMatchRe (l : List Char) : Option Nat :=
  let digitPart : List Char → Option Nat := fun r =>
    match r with
    | c :: t =>
      if c.isDigit then
        (match t with
         | [] => some (digitVal c)
         | _ =>
           if t = ['s', 't'] ∨ t = ['n', 'd'] ∨ t = ['r', 'd'] ∨ t = ['t', 'h'] then
             some (digitVal c)
           else none)
      else none
    | [] => none
  if "option".data.isPrefixOf l then
    match l.drop 6 with
    | c :: t =>
      if c.isWhitespace then digitPart ((c :: t).dropWhile Char.isWhitespace) else none
    | [] => none
  else digitPart l

/-- Python `\w`: alphanumeric or underscore (ASCII suffices here). -/
def isWordChar (c : Char) : Bool := c.isAlphanum || c == '_'

/-- The regex `\b([1-9])\b` applied with `re.search`: the first standalone
digit 1-9 (word boundaries on both sides) anywhere in the message. -/
def searchStandaloneDigit : Option Char → List Char → Option Nat
  | _, [] => none
  | prev, c :: t =>
    if (decide ('1' ≤ c) && decide (c ≤ '9') &&
        (match prev with | some pc => !(isWordChar pc) | none => true) &&
        (match t with | nc :: _ => !(isWordChar nc) | [] => true)) then
      some (digitVal c)
    else searchStandaloneDigit (some c) t

/-- The selection-recognition logic of the confirmation flow: the anchored
selection regex on the lowercased message wins; otherwise a standalone
digit in a message under 20 characters. -/
def recognizedSelection (msg : String) : Option Nat :=
  match selectionMatchRe (pyLower msg.data) with
  | some n => some n
  | none =>
    match searchStandaloneDigit none msg.data with
    | some n => if msg.data.length < 20 then some n else none
    | none => none

/-- The JSON reply of `/api/message` (`fresh` marks the fall-through to
normal command processing after any pending state is discarded). -/
inductive Reply where
  | api (success : Bool) (message : String) (result : Option ExecResult) (status : Nat)
  | fresh
deriving DecidableEq, Repr

/-- Placeholder for an in-range list index (never reached out of range). -/
def dfltMatchItem : MatchItem :=
  { id := "", title := "", start := .dateOnly 0, stop := .dateOnly 0, time := "" }

/-- The confirmation-flow portion of `app.handle_message`: given the
session's pending action and the inbound message, produce the reply, the
store after any executor call, and the new pending state.  In the source
the valid-selection path pops the session key before executing; the
invalid-selection path returns 400 without popping; any unrecognized
message pops the key and falls through to fresh processing. -/
def handle_message (g : String → Option DateTime) (now : DateTime)
    (fdStr ftStr : String → String) (fdTs ftTs : TS → String)
    (st : Store) (fetched : List CalEvent)
    (pending : Option PendingAction) (msg : String) :
    Reply × Store × Option PendingAction :=
  match pending with
  | none => (.fresh, st, none)
  | some pa =>
    match recognizedSelection msg with
    | some selection =>
      if 1 ≤ selection ∧ selection ≤ pa.matchList.length then
        let selected := pa.matchList.getD (selection - 1) dfltMatchItem
        if pa.action = "delete" then
          let rs := delete_event st fetched
            { event_id := some selected.id, title := none, date := none, time := none }
          (.api true
            (generate_conversational_response fdStr ftStr fdTs ftTs pa.action pa.parsed_data rs.1)
            (some rs.1) 200, rs.2, none)
        else if pa.action = "move" then
          let rs := move_event g now st fetched
            { event_id := some selected.id, title := none, date := none, time := none }
            pa.parsed_data.new_date pa.parsed_data.new_time pa.parsed_data.new_end_time
          (.api true
            (generate_conversational_response fdStr ftStr fdTs ftTs pa.action pa.parsed_data rs.1)
            (some rs.1) 200, rs.2, none)
        else
          (.api false "Failed to execute action: AttributeError" none 500, st, none)
      else
        (.api false
          ("Invalid selection. Please choose a number between 1 and " ++
            toString pa.matchList.length ++ ".")
          none 400, st, some pa)
    | none => (.fresh, st, none)

/-! ### Shared helpers for the theorems -/

/-- `(s ++ t).data` unfolds to list append. -/
theorem strdata_append (a b : String) : (a ++ b).data = a.data ++ b.data := rfl

/-- The weekday names and abbreviations `parse_date_time` recognizes, with
their Python `weekday()` numbers. -/
def weekdayNames : List (String × Int) :=
  [("monday", 0), ("mon", 0), ("tuesday", 1), ("tue", 1), ("wednesday", 2), ("wed", 2),
   ("thursday", 3), ("thu", 3), ("friday", 4), ("fri", 4), ("saturday", 5), ("sat", 5),
   ("sunday", 6), ("sun", 6)]

/-- All date keywords the resolution chain checks before falling back to the
generic parser. -/
def dateKeywords : List (List Char) :=
  ["today".data, "tomorrow".data, "yesterday".data,
   "monday".data, "mon".data, "tuesday".data, "tue".data,
   "wednesday".data, "wed".data, "thursday".data, "thu".data,
   "friday".data, "fri".data, "saturday".data, "sat".data,
   "sunday".data, "sun".data]

theorem resolveDate_fallback (g : String → Option DateTime) (now : DateTime)
    (ds : String) (hk : ∀ k ∈ dateKeywords, pyStrip (pyLower ds.data) ≠ k)
    (hg : g ds = none) : resolveDate g now ds = now := by
  have hpair : ∀ a b : List Char, pyStrip (pyLower ds.data) ≠ a →
      pyStrip (pyLower ds.data) ≠ b →
      pyStrip (pyLower ds.data) ∉ ([a, b] : List (List Char)) := by
    intro a b h1 h2 h
    simp only [List.mem_cons, List.not_mem_nil, or_false] at h
    rcases h with h | h
    exacts [h1 h, h2 h]
  unfold resolveDate
  rw [if_neg (hk _ (by decide)), if_neg (hk _ (by decide)), if_neg (hk _ (by decide)),
    if_neg (hpair _ _ (hk _ (by decide)) (hk _ (by decide))),
    if_neg (hpair _ _ (hk _ (by decide)) (hk _ (by decide))),
    if_neg (hpair _ _ (hk _ (by decide)) (hk _ (by decide))),
    if_neg (hpair _ _ (hk _ (by decide)) (hk _ (by decide))),
    if_neg (hpair _ _ (hk _ (by decide)) (hk _ (by decide))),
    if_neg (hpair _ _ (hk _ (by decide)) (hk _ (by decide))),
    if_neg (hpair _ _ (hk _ (by decide)) (hk _ (by decide))), hg]

/-! ### C1 — weekday resolution -/

/-- C1 counterexample: with the current date falling on a Monday (day 0 of
the epoch, hour 10), `parse_date_time("monday")` resolves to that very same
day — `(0 - weekday) % 7 = 0` — so the resolved date is NOT strictly after
the current date, refuting the claim as stated. -/
theorem C1_counterexample :
    parse_date_time (fun _ => none) ⟨0, 10, 0, 0⟩ "monday" none =
      Except.ok (⟨0, 12, 0, 0⟩, ⟨0, 13, 0, 0⟩) ∧
    ¬ ((⟨0, 10, 0, 0⟩ : DateTime).day < (⟨0, 12, 0, 0⟩ : DateTime).day) := by
  exact ⟨rfl, by decide⟩

/-- Auxiliary step for the weekday claims: once the resolution chain has
selected the weekday arithmetic, the resolved start lies within the next
seven days counted inclusively. -/
theorem weekday_resolution_aux (g : String → Option DateTime) (now : DateTime)
    (w : String) (t : Int)
    (hres : resolveDate g now w = addDays now ((t - weekday now) % 7))
    (ht0 : 0 ≤ t) (ht7 : t < 7) :
    ∃ s, parse_date_time g now w none = Except.ok (s, addHours s 1) ∧
      s.day = now.day + (t - weekday now) % 7 ∧
      now.day ≤ s.day ∧ s.day ≤ now.day + 6 ∧
      (s.day = now.day ↔ weekday now = t) := by
  refine ⟨⟨now.day + (t - weekday now) % 7, 12, 0, 0⟩, ?_, rfl, ?_, ?_, ?_⟩
  · simp only [parse_date_time]
    rw [hres]
    rfl
  · simp only
    unfold weekday
    omega
  · simp only
    unfold weekday
    omega
  · simp only
    unfold weekday
    omega

/-- C1 (amended): for every weekday name or abbreviation `w` with Python
weekday number `t` and every current date `now`, `parse_date_time(w)`
succeeds and resolves to the next occurrence of that weekday counted from
`now` inclusive: the resolved date is on or after `now`, at most 6 days
after it, and equals `now`’s date exactly when `now` falls on that
weekday. -/
theorem C1_weekday_resolution (g : String → Option DateTime) (now : DateTime)
    (w : String) (t : Int) (hw : (w, t) ∈ weekdayNames) :
    ∃ s, parse_date_time g now w none = Except.ok (s, addHours s 1) ∧
      s.day = now.day + (t - weekday now) % 7 ∧
      now.day ≤ s.day ∧ s.day ≤ now.day + 6 ∧
      (s.day = now.day ↔ weekday now = t) := by
  fin_cases hw <;>
    exact weekday_resolution_aux g now _ _ rfl (by decide) (by decide)

/-- C1 witness: the amended theorem applied at `"friday"` with the current
date on a Wednesday (epoch day 2). -/
theorem C1_witness :
    ∃ s, parse_date_time (fun _ => none) ⟨2, 9, 30, 0⟩ "friday" none =
        Except.ok (s, addHours s 1) ∧
      s.day = (⟨2, 9, 30, 0⟩ : DateTime).day + (4 - weekday ⟨2, 9, 30, 0⟩) % 7 ∧
      (⟨2, 9, 30, 0⟩ : DateTime).day ≤ s.day ∧
      s.day ≤ (⟨2, 9, 30, 0⟩ : DateTime).day + 6 ∧
      (s.day = (⟨2, 9, 30, 0⟩ : DateTime).day ↔ weekday ⟨2, 9, 30, 0⟩ = 4) :=
  C1_weekday_resolution (fun _ => none) ⟨2, 9, 30, 0⟩ "friday" 4 (by decide)
/-! ### C5 / C8 — parse_date_time totality and time defaults -/

/-- Exhaustive shape of a successful `parse_date_time` call: the end is
start + 1 hour, the day is the resolved date's day, and the start's
hour/minute follow the time branch that was taken. -/
theorem parse_ok_cases (g : String → Option DateTime) (now : DateTime)
    (ds : String) (ts : Option String) (p : DateTime × DateTime)
    (hp : parse_date_time g now ds ts = Except.ok p) :
    p.2 = addHours p.1 1 ∧ p.1.day = (resolveDate g now ds).day ∧
    (ts = none → p.1.hour = 12 ∧ p.1.minute = 0) ∧
    (∀ t, ts = some t → parseTimeMatch (pyStrip (pyLower t.data)) = none →
      p.1.hour = 12 ∧ p.1.minute = 0) ∧
    (∀ t h m ap, ts = some t →
      parseTimeMatch (pyStrip (pyLower t.data)) = some (h, m, ap) →
      p.1.hour = adjustHour h ap ∧ p.1.minute = m) := by
  simp only [parse_date_time] at hp
  cases ts with
  | none =>
    have hp' : Except.ok
        ({ resolveDate g now ds with hour := 12, minute := 0, second := 0 },
          addHours { resolveDate g now ds with hour := 12, minute := 0, second := 0 } 1) =
        Except.ok p := hp
    injection hp' with h
    subst h
    refine ⟨rfl, rfl, fun _ => ⟨rfl, rfl⟩, ?_, ?_⟩
    · intro t ht
      cases ht
    · intro t h m ap ht
      cases ht
  | some t =>
    cases hm : parseTimeMatch (pyStrip (pyLower t.data)) with
    | none =>
      rw [show timeBranch (resolveDate g now ds) (some t) =
            replaceTime (resolveDate g now ds) 12 0 from by
          simp only [timeBranch]
          rw [hm]] at hp
      have hp' : Except.ok
          ({ resolveDate g now ds with hour := 12, minute := 0, second := 0 },
            addHours { resolveDate g now ds with hour := 12, minute := 0, second := 0 } 1) =
          Except.ok p := hp
      injection hp' with h
      subst h
      refine ⟨rfl, rfl, ?_, ?_, ?_⟩
      · intro h
        cases h
      · intro t' ht' _
        exact ⟨rfl, rfl⟩
      · intro t' h' m' ap' ht' hm'
        injection ht' with ht''
        subst ht''
        rw [hm] at hm'
        cases hm'
    | some trip =>
      obtain ⟨h, m, ap⟩ := trip
      rw [show timeBranch (resolveDate g now ds) (some t) =
            replaceTime (resolveDate g now ds) (adjustHour h ap) m from by
          simp only [timeBranch]
          rw [hm]] at hp
      unfold replaceTime at hp
      by_cases h1 : adjustHour h ap > 23
      · rw [if_pos h1] at hp
        have hp' : (Except.error "hour must be in 0..23" : Except String (DateTime × DateTime)) =
            Except.ok p := hp
        cases hp'
      rw [if_neg h1] at hp
      by_cases h2 : m > 59
      · rw [if_pos h2] at hp
        have hp' : (Except.error "minute must be in 0..59" : Except String (DateTime × DateTime)) =
            Except.ok p := hp
        cases hp'
      rw [if_neg h2] at hp
      · have hp' : Except.ok
            ({ resolveDate g now ds with hour := adjustHour h ap, minute := m, second := 0 },
              addHours
                { resolveDate g now ds with hour := adjustHour h ap, minute := m, second := 0 } 1) =
            Except.ok p := hp
        injection hp' with he
        subst he
        refine ⟨rfl, rfl, ?_, ?_, ?_⟩
        · intro hc
          cases hc
        · intro t' ht' hm'
          injection ht' with ht''
          subst ht''
          rw [hm] at hm'
          cases hm'
        · intro t' h' m' ap' ht' hm'
          injection ht' with ht''
          subst ht''
          rw [hm] at hm'
          injection hm' with e0
          injection e0 with e1 e2
          injection e2 with e3 e4
          subst e1
          subst e3
          subst e4
          exact ⟨rfl, rfl⟩

/-- Range check on a matched time string: does it survive
`datetime.replace` (hour ≤ 23 after the 12h adjustment, minute ≤ 59)? -/
def timeInRangeS (t : String) : Bool :=
  match parseTimeMatch (pyStrip (pyLower t.data)) with
  | none => true
  | some (h, m, ap) => decide (adjustHour h ap ≤ 23) && decide (m ≤ 59)

/-- Range check lifted to an optional time string. -/
def timeInRange : Option String → Bool
  | none => true
  | some t => timeInRangeS t

/-- C5 counterexample: `parse_date_time("today", "25:00")` does raise — the
time regex matches hour 25, no meridiem adjustment applies, and
`datetime.replace(hour=25, ...)` raises `ValueError`, so the call returns no
timestamp pair, refuting "never raises" as stated. -/
theorem C5_counterexample :
    parse_date_time (fun _ => none) ⟨0, 0, 0, 0⟩ "today" (some "25:00") =
      Except.error "hour must be in 0..23" := rfl

/-- C5 (amended): `parse_date_time` never raises and returns a timestamp
pair PROVIDED any matched time is in range after the 12h adjustment
(hour ≤ 23, minute ≤ 59) — in particular always when the time is absent or
unmatched; an out-of-range matched time such as "25:00" raises `ValueError`.
Within that proviso the fallbacks hold: an unparseable date (no keyword,
generic parse fails) falls back to the current date, and an absent or
unmatched time falls back to 12:00 noon. -/
theorem C5_no_raise_amended (g : String → Option DateTime) (now : DateTime)
    (ds : String) (ts : Option String) (hin : timeInRange ts = true) :
    (∃ p, parse_date_time g now ds ts = Except.ok p) ∧
    ((∀ k ∈ dateKeywords, pyStrip (pyLower ds.data) ≠ k) → g ds = none →
      ∀ p, parse_date_time g now ds ts = Except.ok p → p.1.day = now.day) ∧
    (ts = none →
      ∀ p, parse_date_time g now ds ts = Except.ok p →
        p.1.hour = 12 ∧ p.1.minute = 0) ∧
    (∀ t, ts = some t → parseTimeMatch (pyStrip (pyLower t.data)) = none →
      ∀ p, parse_date_time g now ds ts = Except.ok p →
        p.1.hour = 12 ∧ p.1.minute = 0) := by
  refine ⟨?_, ?_, ?_, ?_⟩
  · simp only [parse_date_time]
    cases ts with
    | none => exact ⟨_, rfl⟩
    | some t =>
      cases hm : parseTimeMatch (pyStrip (pyLower t.data)) with
      | none =>
        rw [show timeBranch (resolveDate g now ds) (some t) =
              replaceTime (resolveDate g now ds) 12 0 from by
            simp only [timeBranch]
            rw [hm]]
        exact ⟨_, rfl⟩
      | some trip =>
        obtain ⟨h, m, ap⟩ := trip
        have hin' : timeInRangeS t = true := hin
        unfold timeInRangeS at hin'
        rw [hm] at hin'
        simp only [Bool.and_eq_true, decide_eq_true_eq] at hin'
        rw [show timeBranch (resolveDate g now ds) (some t) =
              replaceTime (resolveDate g now ds) (adjustHour h ap) m from by
            simp only [timeBranch]
            rw [hm]]
        unfold replaceTime
        rw [if_neg (by omega), if_neg (by omega)]
        exact ⟨_, rfl⟩
  · intro hk hg p hp
    have hd := (parse_ok_cases g now ds ts p hp).2.1
    rw [resolveDate_fallback g now ds hk hg] at hd
    exact hd
  · intro hts p hp
    exact (parse_ok_cases g now ds ts p hp).2.2.1 hts
  · intro t hts hm p hp
    exact (parse_ok_cases g now ds ts p hp).2.2.2.1 t hts hm

/-- C5 witness: the amended theorem applied at the unparseable date
"someday" (generic parser failing) and the unmatched time "noonish": the
call succeeds, the date falls back to the current day and the time to
noon. -/
theorem C5_witness :
    (∃ p, parse_date_time (fun _ => none) ⟨3, 7, 0, 0⟩ "someday" (some "noonish") =
      Except.ok p) ∧
    (((⟨3, 12, 0, 0⟩, ⟨3, 13, 0, 0⟩) : DateTime × DateTime).1.day =
      (⟨3, 7, 0, 0⟩ : DateTime).day) ∧
    (((⟨3, 12, 0, 0⟩, ⟨3, 13, 0, 0⟩) : DateTime × DateTime).1.hour = 12 ∧
      ((⟨3, 12, 0, 0⟩, ⟨3, 13, 0, 0⟩) : DateTime × DateTime).1.minute = 0) := by
  have h := C5_no_raise_amended (fun _ => none) ⟨3, 7, 0, 0⟩ "someday" (some "noonish")
    (by decide)
  refine ⟨h.1, ?_, ?_⟩
  · exact h.2.1 (by decide) rfl (⟨3, 12, 0, 0⟩, ⟨3, 13, 0, 0⟩) rfl
  · exact h.2.2.2 "noonish" rfl (by decide) (⟨3, 12, 0, 0⟩, ⟨3, 13, 0, 0⟩) rfl

/-- C8: `parse_date_time` maps "12am" to 00:00 and "12pm" to 12:00; a
missing time defaults the start to 12:00 noon; and every successful call
returns an end exactly one hour (3600 seconds) after the start. -/
theorem C8_time_defaults (g : String → Option DateTime) (now : DateTime) (ds : String) :
    (∃ s, parse_date_time g now ds (some "12am") = Except.ok (s, addHours s 1) ∧
      s.hour = 0 ∧ s.minute = 0) ∧
    (∃ s, parse_date_time g now ds (some "12pm") = Except.ok (s, addHours s 1) ∧
      s.hour = 12 ∧ s.minute = 0) ∧
    (∃ s, parse_date_time g now ds none = Except.ok (s, addHours s 1) ∧
      s.hour = 12 ∧ s.minute = 0) ∧
    (∀ ts p, parse_date_time g now ds ts = Except.ok p →
      p.2 = addHours p.1 1 ∧ toSeconds p.2 - toSeconds p.1 = 3600) := by
  refine ⟨⟨_, rfl, rfl, rfl⟩, ⟨_, rfl, rfl, rfl⟩, ⟨_, rfl, rfl, rfl⟩, ?_⟩
  intro ts p hp
  have h2 := (parse_ok_cases g now ds ts p hp).1
  refine ⟨h2, ?_⟩
  rw [h2]
  unfold addHours
  rw [toSeconds_addSeconds]
  omega

/-- C8 witness: the theorem applied with current date day 5, date "today";
the one-hour default checked on the concrete noon pair. -/
theorem C8_witness :
    (∃ s, parse_date_time (fun _ => none) ⟨5, 8, 0, 0⟩ "today" (some "12am") =
      Except.ok (s, addHours s 1) ∧ s.hour = 0 ∧ s.minute = 0) ∧
    (∃ s, parse_date_time (fun _ => none) ⟨5, 8, 0, 0⟩ "today" (some "12pm") =
      Except.ok (s, addHours s 1) ∧ s.hour = 12 ∧ s.minute = 0) ∧
    (∃ s, parse_date_time (fun _ => none) ⟨5, 8, 0, 0⟩ "today" none =
      Except.ok (s, addHours s 1) ∧ s.hour = 12 ∧ s.minute = 0) ∧
    ((⟨5, 13, 0, 0⟩ : DateTime) = addHours ⟨5, 12, 0, 0⟩ 1 ∧
      toSeconds (⟨5, 13, 0, 0⟩ : DateTime) - toSeconds ⟨5, 12, 0, 0⟩ = 3600) := by
  have h := C8_time_defaults (fun _ => none) ⟨5, 8, 0, 0⟩ "today"
  exact ⟨h.1, h.2.1, h.2.2.1, h.2.2.2 none (⟨5, 12, 0, 0⟩, ⟨5, 13, 0, 0⟩) rfl⟩

/-! ### C4 — format_time_range and "All day" -/

/-- The colon the hour formatter always emits. -/
theorem colon_mem_formatTimeAmPm (dt : DateTime) : ':' ∈ (formatTimeAmPm dt).data := by
  unfold formatTimeAmPm
  simp only [strdata_append]
  exact List.mem_append_left _ (List.mem_append_left _ (List.mem_append_left _
    (List.mem_append_right _ (by decide))))

/-- C4 counterexample: a timed start paired with a date-only end — the end
lacks a time component, yet `format_time_range` does NOT return "All day";
it only tests the start string for a `T`, and the date-only end parses to
midnight and is formatted as "12:00 AM", refuting the claimed
bidirectional. -/
theorem C4_counterexample :
    format_time_range (TS.dateTime ⟨0, 12, 0, 0⟩ none) (TS.dateOnly 1) =
      "12:00 PM - 12:00 AM" ∧
    ¬ (format_time_range (TS.dateTime ⟨0, 12, 0, 0⟩ none) (TS.dateOnly 1) = "All day") := by
  constructor
  · rfl
  · intro h
    have := congrArg String.data h
    cases this

/-- C4 (amended): `format_time_range(start, end)` returns the literal string
"All day" if and only if the START timestamp lacks a time component; the end
timestamp is never consulted for the all-day test. -/
theorem C4_allday_iff (s e : TS) :
    format_time_range s e = "All day" ↔ ∃ d, s = TS.dateOnly d := by
  constructor
  · intro h
    cases s with
    | dateOnly d => exact ⟨d, rfl⟩
    | dateTime sdt off =>
      exfalso
      have hc : ':' ∈ (format_time_range (TS.dateTime sdt off) e).data := by
        unfold format_time_range
        rw [strdata_append, strdata_append]
        exact List.mem_append_left _ (List.mem_append_left _ (colon_mem_formatTimeAmPm sdt))
      rw [h] at hc
      exact absurd hc (by decide)
  · intro h
    obtain ⟨d, rfl⟩ := h
    rfl

/-- C4 witness: the amended theorem applied to an all-day start (both
directions checked at concrete inputs). -/
theorem C4_witness :
    format_time_range (TS.dateOnly 7) (TS.dateTime ⟨7, 9, 0, 0⟩ none) = "All day" ∧
    ∃ d, (TS.dateOnly 7 : TS) = TS.dateOnly d := by
  constructor
  · exact (C4_allday_iff (TS.dateOnly 7) (TS.dateTime ⟨7, 9, 0, 0⟩ none)).mpr ⟨7, rfl⟩
  · exact (C4_allday_iff (TS.dateOnly 7) (TS.dateTime ⟨7, 9, 0, 0⟩ none)).mp rfl

/-! ### C6 — fuzzy title matching -/

/-- The spec's description of title filtering, written from the spec text:
split both the query and the candidate title into lowercase
whitespace-separated tokens; match iff some query token is a substring of
some title token or vice versa. -/
def specTitleTokensMatch (query eventTitle : String) : Bool :=
  (pySplitWs (pyLower query.data)).any fun qt =>
    (pySplitWs (pyLower eventTitle.data)).any fun tt =>
      strContains qt tt || strContains tt qt

/-- C6 counterexample: for the empty query the claimed biconditional fails —
no token of the empty query is a substring of any token of "Team Meeting"
(the spec-side predicate is false), yet `search_events` retains the event,
because the source guards the whole title filter with `if title:` and an
empty query is falsy. -/
theorem C6_counterexample :
    specTitleTokensMatch "" "Team Meeting" = false ∧
    search_events
        [⟨"e2", some "Team Meeting", TS.dateTime ⟨0, 10, 0, 0⟩ none,
          TS.dateTime ⟨0, 11, 0, 0⟩ none, none⟩] (some "") none =
      [mkMatchItem ⟨"e2", some "Team Meeting", TS.dateTime ⟨0, 10, 0, 0⟩ none,
        TS.dateTime ⟨0, 11, 0, 0⟩ none, none⟩] := by
  exact ⟨by decide, by decide⟩

/-- C6 (amended): for every NONEMPTY query the title filter of
`search_events` retains exactly the events whose title matches the query
under bidirectional word-level substring matching, case-insensitively; an
empty (or absent) query is falsy under `if title:` and disables title
filtering, retaining every fetched event.  Concretely, "standup" matches
"Daily Standup" (also with the query uppercased) and "nonexistent" does not
match "Team Meeting". -/
theorem C6_title_matching :
    (∀ (fetched : List CalEvent) (q : String), q ≠ "" →
      search_events fetched (some q) none =
        (fetched.filter fun ev => specTitleTokensMatch q (ev.summary.getD "")).map
          mkMatchItem) ∧
    (∀ fetched : List CalEvent,
      search_events fetched (some "") none = fetched.map mkMatchItem) ∧
    (search_events
        [⟨"e1", some "Daily Standup", TS.dateTime ⟨0, 9, 0, 0⟩ none,
          TS.dateTime ⟨0, 9, 30, 0⟩ none, none⟩] (some "standup") none =
      [mkMatchItem ⟨"e1", some "Daily Standup", TS.dateTime ⟨0, 9, 0, 0⟩ none,
        TS.dateTime ⟨0, 9, 30, 0⟩ none, none⟩]) ∧
    (search_events
        [⟨"e2", some "Team Meeting", TS.dateTime ⟨0, 10, 0, 0⟩ none,
          TS.dateTime ⟨0, 11, 0, 0⟩ none, none⟩] (some "nonexistent") none = []) ∧
    (specTitleTokensMatch "STANDUP" "daily standup" = true) := by
  refine ⟨?_, ?_, by decide, by decide, by decide⟩
  · intro fetched q hq
    have hqb : (q == "") = false := beq_eq_false_iff_ne.mpr hq
    unfold search_events
    have hb : (none : Option String).bind parseTargetTime = none := rfl
    rw [hb]
    congr 1
    apply List.filter_congr
    intro ev _
    simp [eventKeep, titleKeep, timeKeep, pyTruthy, hqb, titleMatchWords,
      specTitleTokensMatch]
  · intro fetched
    unfold search_events
    have hb : (none : Option String).bind parseTargetTime = none := rfl
    rw [hb]
    congr 1
    exact List.filter_eq_self.mpr
      (fun ev _ => by simp [eventKeep, titleKeep, timeKeep, pyTruthy])

/-- C6 witness: the nonempty-query part of the amended theorem applied at
query "standup" over a singleton window. -/
theorem C6_witness :
    search_events
        [⟨"e1", some "Daily Standup", TS.dateTime ⟨0, 9, 0, 0⟩ none,
          TS.dateTime ⟨0, 9, 30, 0⟩ none, none⟩] (some "standup") none =
      ([⟨"e1", some "Daily Standup", TS.dateTime ⟨0, 9, 0, 0⟩ none,
          TS.dateTime ⟨0, 9, 30, 0⟩ none, none⟩].filter
        (fun ev => specTitleTokensMatch "standup" (ev.summary.getD ""))).map
          mkMatchItem :=
  C6_title_matching.1
    [⟨"e1", some "Daily Standup", TS.dateTime ⟨0, 9, 0, 0⟩ none,
      TS.dateTime ⟨0, 9, 30, 0⟩ none, none⟩] "standup" (by decide)

/-! ### C7 — exact time filtering -/

/-- C7: when a time expression that the time regex accepts is given, both
`search_events` and `list_events` retain an event only if its start is a
timed boundary whose hour and minute equal the parsed target exactly; in
particular every all-day event is excluded. -/
theorem C7_exact_time_filter (fetched : List CalEvent) (title : Option String)
    (dq : Option String) (tqs : String) (th tm : Nat)
    (hp : parseTargetTime tqs = some (th, tm)) :
    (∀ item ∈ search_events fetched title (some tqs),
      ∃ dt off, item.start = TS.dateTime dt off ∧ dt.hour = th ∧ dt.minute = tm) ∧
    (∀ item ∈ (list_events fetched dq (some tqs)).events,
      ∃ dt off, item.start = TS.dateTime dt off ∧ dt.hour = th ∧ dt.minute = tm) := by
  have hb : (some tqs).bind parseTargetTime = some (th, tm) := hp
  constructor
  · intro item hitem
    unfold search_events at hitem
    rw [hb] at hitem
    rw [List.mem_map] at hitem
    obtain ⟨ev, hev, rfl⟩ := hitem
    rw [List.mem_filter] at hev
    have hk := hev.2
    unfold eventKeep at hk
    rw [Bool.and_eq_true] at hk
    have ht := hk.2
    unfold timeKeep at ht
    cases hs : ev.start with
    | dateOnly d =>
      rw [hs] at ht
      cases ht
    | dateTime dt off =>
      rw [hs] at ht
      rw [Bool.and_eq_true, beq_iff_eq, beq_iff_eq] at ht
      exact ⟨dt, off, by rw [show (mkMatchItem ev).start = ev.start from rfl, hs],
        ht.1, ht.2⟩
  · intro item hitem
    simp only [list_events] at hitem
    rw [hb] at hitem
    split at hitem
    · cases hitem
    · rw [List.mem_map] at hitem
      obtain ⟨ev, hev, rfl⟩ := hitem
      rw [List.mem_filter] at hev
      have ht := hev.2
      unfold timeKeep at ht
      cases hs : ev.start with
      | dateOnly d =>
        rw [hs] at ht
        cases ht
      | dateTime dt off =>
        rw [hs] at ht
        rw [Bool.and_eq_true, beq_iff_eq, beq_iff_eq] at ht
        exact ⟨dt, off, by rw [show (mkListItem ev).start = ev.start from rfl, hs],
          ht.1, ht.2⟩

/-- C7 witness: the theorem applied to a window containing a 3:00pm event,
a 3:05pm event and an all-day event, filtered by "3pm" (hour 15, minute 0). -/
theorem C7_witness :
    parseTargetTime "3pm" = some (15, 0) ∧
    (∀ item ∈ search_events
        [⟨"a", some "Meeting", TS.dateTime ⟨0, 15, 0, 0⟩ none,
          TS.dateTime ⟨0, 16, 0, 0⟩ none, none⟩,
         ⟨"b", some "Meeting", TS.dateTime ⟨0, 15, 5, 0⟩ none,
          TS.dateTime ⟨0, 16, 0, 0⟩ none, none⟩,
         ⟨"c", some "Meeting", TS.dateOnly 0, TS.dateOnly 1, none⟩]
        (some "meeting") (some "3pm"),
      ∃ dt off, item.start = TS.dateTime dt off ∧ dt.hour = 15 ∧ dt.minute = 0) := by
  refine ⟨by decide, ?_⟩
  exact (C7_exact_time_filter _ (some "meeting") none "3pm" 15 0 (by decide)).1

/-! ### C3 — multi-match disambiguation invariant -/

/-- C3: whenever the search of a delete/move yields two or more matches, the
returned result has `needs_confirmation = true`, carries the full candidate
list (≥ 2 entries), no resolved `event`, and the store is left untouched;
conversely any delete/move result with `needs_confirmation = true` carries at
least two candidates, no resolved event, and an unchanged store. -/
theorem C3_multi_match (st : Store) (fetched : List CalEvent) (q : EventQuery)
    (g : String → Option DateTime) (now : DateTime) (nd nt net : Option String) :
    (∀ m1 m2 rest, q.event_id = none →
      search_events fetched q.title q.time = m1 :: m2 :: rest →
      delete_event st fetched q =
        ({ success := false
         , message := "Found " ++ toString (m1 :: m2 :: rest).length ++
             " matching events. Please specify which one:"
         , event := none, multiple_matches := some (m1 :: m2 :: rest)
         , needs_confirmation := true, events := [] }, st)) ∧
    (∀ m1 m2 rest, q.event_id = none →
      search_events fetched q.title q.time = m1 :: m2 :: rest →
      move_event g now st fetched q nd nt net =
        ({ success := false
         , message := "Found " ++ toString (m1 :: m2 :: rest).length ++
             " matching events. Please specify which one:"
         , event := none, multiple_matches := some (m1 :: m2 :: rest)
         , needs_confirmation := true, events := [] }, st)) ∧
    ((delete_event st fetched q).1.needs_confirmation = true →
      ∃ ms, (delete_event st fetched q).1.multiple_matches = some ms ∧ 2 ≤ ms.length ∧
        (delete_event st fetched q).1.event = none ∧ (delete_event st fetched q).2 = st) ∧
    ((move_event g now st fetched q nd nt net).1.needs_confirmation = true →
      ∃ ms, (move_event g now st fetched q nd nt net).1.multiple_matches = some ms ∧
        2 ≤ ms.length ∧ (move_event g now st fetched q nd nt net).1.event = none ∧
        (move_event g now st fetched q nd nt net).2 = st) := by
  refine ⟨?_, ?_, ?_, ?_⟩
  · intro m1 m2 rest hq hs
    simp only [delete_event, hq, hs]
  · intro m1 m2 rest hq hs
    simp only [move_event, hq, hs]
  · intro h
    cases hq : q.event_id with
    | some eid =>
      cases hf : st.findEv eid <;> simp only [delete_event, hq, hf, failResult] at h ⊢ <;>
        cases h
    | none =>
      cases hs : search_events fetched q.title q.time with
      | nil =>
        simp only [delete_event, hq, hs, failResult] at h
        cases h
      | cons m1 tl =>
        cases tl with
        | nil =>
          cases hf : st.findEv m1.id <;>
            simp only [delete_event, hq, hs, hf, failResult] at h <;> cases h
        | cons m2 rest =>
          refine ⟨m1 :: m2 :: rest, ?_, ?_, ?_, ?_⟩
          · simp only [delete_event, hq, hs]
          · simp only [List.length_cons]
            omega
          · simp only [delete_event, hq, hs]
          · simp only [delete_event, hq, hs]
  · intro h
    cases hq : q.event_id with
    | some eid =>
      cases hf : st.findEv eid with
      | none =>
        simp only [move_event, hq, hf, failResult] at h
        cases h
      | some ev =>
        cases hc : computeNewTimes g now ev nd nt net with
        | error e =>
          simp only [move_event, hq, hf, hc, failResult] at h
          cases h
        | ok pr =>
          obtain ⟨ns, ne⟩ := pr
          simp only [move_event, hq, hf, hc, failResult] at h
          cases h
    | none =>
      cases hs : search_events fetched q.title q.time with
      | nil =>
        simp only [move_event, hq, hs, failResult] at h
        cases h
      | cons m1 tl =>
        cases tl with
        | nil =>
          cases hf : st.findEv m1.id with
          | none =>
            simp only [move_event, hq, hs, hf, failResult] at h
            cases h
          | some ev =>
            cases hc : computeNewTimes g now ev nd nt net with
            | error e =>
              simp only [move_event, hq, hs, hf, hc, failResult] at h
              cases h
            | ok pr =>
              obtain ⟨ns, ne⟩ := pr
              simp only [move_event, hq, hs, hf, hc, failResult] at h
              cases h
        | cons m2 rest =>
          refine ⟨m1 :: m2 :: rest, ?_, ?_, ?_, ?_⟩
          · simp only [move_event, hq, hs]
          · simp only [List.length_cons]
            omega
          · simp only [move_event, hq, hs]
          · simp only [move_event, hq, hs]

/-- C3 witness: a query matching two events ("Meeting" at 9 and at 10) on
both executors, and the converse applied to the delete result. -/
theorem C3_witness :
    (delete_event ⟨[⟨"a", some "Meeting", TS.dateTime ⟨0, 9, 0, 0⟩ none,
          TS.dateTime ⟨0, 10, 0, 0⟩ none, none⟩,
        ⟨"b", some "Meeting", TS.dateTime ⟨0, 10, 0, 0⟩ none,
          TS.dateTime ⟨0, 11, 0, 0⟩ none, none⟩]⟩
      [⟨"a", some "Meeting", TS.dateTime ⟨0, 9, 0, 0⟩ none,
          TS.dateTime ⟨0, 10, 0, 0⟩ none, none⟩,
        ⟨"b", some "Meeting", TS.dateTime ⟨0, 10, 0, 0⟩ none,
          TS.dateTime ⟨0, 11, 0, 0⟩ none, none⟩]
      ⟨none, some "meeting", none, none⟩).1.needs_confirmation = true ∧
    (∃ ms, (delete_event ⟨[⟨"a", some "Meeting", TS.dateTime ⟨0, 9, 0, 0⟩ none,
          TS.dateTime ⟨0, 10, 0, 0⟩ none, none⟩,
        ⟨"b", some "Meeting", TS.dateTime ⟨0, 10, 0, 0⟩ none,
          TS.dateTime ⟨0, 11, 0, 0⟩ none, none⟩]⟩
      [⟨"a", some "Meeting", TS.dateTime ⟨0, 9, 0, 0⟩ none,
          TS.dateTime ⟨0, 10, 0, 0⟩ none, none⟩,
        ⟨"b", some "Meeting", TS.dateTime ⟨0, 10, 0, 0⟩ none,
          TS.dateTime ⟨0, 11, 0, 0⟩ none, none⟩]
      ⟨none, some "meeting", none, none⟩).1.multiple_matches = some ms ∧
      2 ≤ ms.length ∧
      (delete_event ⟨[⟨"a", some "Meeting", TS.dateTime ⟨0, 9, 0, 0⟩ none,
          TS.dateTime ⟨0, 10, 0, 0⟩ none, none⟩,
        ⟨"b", some "Meeting", TS.dateTime ⟨0, 10, 0, 0⟩ none,
          TS.dateTime ⟨0, 11, 0, 0⟩ none, none⟩]⟩
      [⟨"a", some "Meeting", TS.dateTime ⟨0, 9, 0, 0⟩ none,
          TS.dateTime ⟨0, 10, 0, 0⟩ none, none⟩,
        ⟨"b", some "Meeting", TS.dateTime ⟨0, 10, 0, 0⟩ none,
          TS.dateTime ⟨0, 11, 0, 0⟩ none, none⟩]
      ⟨none, some "meeting", none, none⟩).1.event = none ∧
      (delete_event ⟨[⟨"a", some "Meeting", TS.dateTime ⟨0, 9, 0, 0⟩ none,
          TS.dateTime ⟨0, 10, 0, 0⟩ none, none⟩,
        ⟨"b", some "Meeting", TS.dateTime ⟨0, 10, 0, 0⟩ none,
          TS.dateTime ⟨0, 11, 0, 0⟩ none, none⟩]⟩
      [⟨"a", some "Meeting", TS.dateTime ⟨0, 9, 0, 0⟩ none,
          TS.dateTime ⟨0, 10, 0, 0⟩ none, none⟩,
        ⟨"b", some "Meeting", TS.dateTime ⟨0, 10, 0, 0⟩ none,
          TS.dateTime ⟨0, 11, 0, 0⟩ none, none⟩]
      ⟨none, some "meeting", none, none⟩).2 =
        ⟨[⟨"a", some "Meeting", TS.dateTime ⟨0, 9, 0, 0⟩ none,
          TS.dateTime ⟨0, 10, 0, 0⟩ none, none⟩,
        ⟨"b", some "Meeting", TS.dateTime ⟨0, 10, 0, 0⟩ none,
          TS.dateTime ⟨0, 11, 0, 0⟩ none, none⟩]⟩) := by
  refine ⟨by decide, ?_⟩
  exact (C3_multi_match _ _ _ (fun _ => none) ⟨0, 0, 0, 0⟩ none none none).2.2.1 (by decide)

/-! ### C10 — ambiguity is reported through the non-success path -/

/-- C10: every delete/move result with `needs_confirmation = true` also has
`success = false`, and the response generator's success path is independent
of the ambiguity fields — the numbered multi-match prompt can only be
produced inside the failure branch. -/
theorem C10_ambiguity_not_success :
    (∀ (st : Store) (fetched : List CalEvent) (q : EventQuery),
      (delete_event st fetched q).1.needs_confirmation = true →
      (delete_event st fetched q).1.success = false) ∧
    (∀ (g : String → Option DateTime) (now : DateTime) (st : Store)
        (fetched : List CalEvent) (q : EventQuery) (nd nt net : Option String),
      (move_event g now st fetched q nd nt net).1.needs_confirmation = true →
      (move_event g now st fetched q nd nt net).1.success = false) ∧
    (∀ (fdStr ftStr : String → String) (fdTs ftTs : TS → String)
        (action : String) (p : ParsedData) (r : ExecResult), r.success = true →
      generate_conversational_response fdStr ftStr fdTs ftTs action p r =
        generate_conversational_response fdStr ftStr fdTs ftTs action p
          { r with multiple_matches := none, needs_confirmation := false }) := by
  refine ⟨?_, ?_, ?_⟩
  · intro st fetched q h
    cases hq : q.event_id with
    | some eid =>
      cases hf : st.findEv eid <;> simp only [delete_event, hq, hf, failResult] at h ⊢ <;>
        cases h
    | none =>
      cases hs : search_events fetched q.title q.time with
      | nil =>
        simp only [delete_event, hq, hs, failResult] at h ⊢
      | cons m1 tl =>
        cases tl with
        | nil =>
          cases hf : st.findEv m1.id <;>
            simp only [delete_event, hq, hs, hf, failResult] at h ⊢ <;> cases h
        | cons m2 rest =>
          simp only [delete_event, hq, hs]
  · intro g now st fetched q nd nt net h
    cases hq : q.event_id with
    | some eid =>
      cases hf : st.findEv eid with
      | none => simp only [move_event, hq, hf, failResult] at h ⊢
      | some ev =>
        cases hc : computeNewTimes g now ev nd nt net with
        | error e => simp only [move_event, hq, hf, hc, failResult] at h ⊢
        | ok pr =>
          obtain ⟨ns, ne⟩ := pr
          simp only [move_event, hq, hf, hc, failResult] at h ⊢
          cases h
    | none =>
      cases hs : search_events fetched q.title q.time with
      | nil => simp only [move_event, hq, hs, failResult] at h ⊢
      | cons m1 tl =>
        cases tl with
        | nil =>
          cases hf : st.findEv m1.id with
          | none => simp only [move_event, hq, hs, hf, failResult] at h ⊢
          | some ev =>
            cases hc : computeNewTimes g now ev nd nt net with
            | error e => simp only [move_event, hq, hs, hf, hc, failResult] at h ⊢
            | ok pr =>
              obtain ⟨ns, ne⟩ := pr
              simp only [move_event, hq, hs, hf, hc, failResult] at h ⊢
              cases h
        | cons m2 rest =>
          simp only [move_event, hq, hs]
  · intro fdStr ftStr fdTs ftTs action p r h
    obtain ⟨su, msg, evt, mm, nc, evs⟩ := r
    cases h
    rfl

/-- C10 witness: the first part applied to a two-match delete, the third to
a successful list result carrying stale ambiguity fields. -/
theorem C10_witness :
    (delete_event ⟨[⟨"a", some "Meeting", TS.dateTime ⟨0, 9, 0, 0⟩ none,
          TS.dateTime ⟨0, 10, 0, 0⟩ none, none⟩,
        ⟨"b", some "Meeting", TS.dateTime ⟨0, 10, 0, 0⟩ none,
          TS.dateTime ⟨0, 11, 0, 0⟩ none, none⟩]⟩
      [⟨"a", some "Meeting", TS.dateTime ⟨0, 9, 0, 0⟩ none,
          TS.dateTime ⟨0, 10, 0, 0⟩ none, none⟩,
        ⟨"b", some "Meeting", TS.dateTime ⟨0, 10, 0, 0⟩ none,
          TS.dateTime ⟨0, 11, 0, 0⟩ none, none⟩]
      ⟨none, some "meeting", none, none⟩).1.success = false ∧
    generate_conversational_response (fun s => s) (fun s => s) (fun _ => "d") (fun _ => "t")
        "list" ⟨none, none, none, none, none, none, none⟩
        ⟨true, "Found 1 event(s)", none, some [], true, []⟩ =
      generate_conversational_response (fun s => s) (fun s => s) (fun _ => "d") (fun _ => "t")
        "list" ⟨none, none, none, none, none, none, none⟩
        ⟨true, "Found 1 event(s)", none, none, false, []⟩ := by
  constructor
  · exact C10_ambiguity_not_success.1 _ _ _ (by decide)
  · exact C10_ambiguity_not_success.2.2 (fun s => s) (fun s => s) (fun _ => "d")
      (fun _ => "t") "list" ⟨none, none, none, none, none, none, none⟩
      ⟨true, "Found 1 event(s)", none, some [], true, []⟩ rfl

/-! ### C2 — move preserves duration -/

/-- When no explicit new end is given and both original boundaries are timed
with compatible awareness, the new end is the new start plus the original
duration. -/
theorem computeNewTimes_preserve (g : String → Option DateTime) (now : DateTime)
    (ev : CalEvent) (nd nt net : Option String) (osdt oedt : DateTime)
    (osoff oeoff : Option Int) (dur : Int) (ns dfl : DateTime)
    (hnet : pyTruthy net = false)
    (hs : ev.start = TS.dateTime osdt osoff) (he : ev.stop = TS.dateTime oedt oeoff)
    (hsub : tsubAware (oedt, oeoff) (osdt, osoff) = some dur)
    (hp : parse_date_time_opt g now nd nt = Except.ok (ns, dfl)) :
    computeNewTimes g now ev nd nt net = Except.ok (ns, addSeconds ns dur) := by
  simp only [computeNewTimes, hp]
  rw [if_neg (by simp [hnet])]
  simp only [hs, he, getDT, hsub]

/-- When a boundary of the original event is absent (all-day) and no truthy
explicit end is given, the default start + 1 hour end from `parse_date_time`
is used. -/
theorem computeNewTimes_default (g : String → Option DateTime) (now : DateTime)
    (ev : CalEvent) (nd nt net : Option String) (ns dfl : DateTime)
    (hnet : pyTruthy net = false)
    (hnone : getDT ev.start = none ∨ getDT ev.stop = none)
    (hp : parse_date_time_opt g now nd nt = Except.ok (ns, dfl)) :
    computeNewTimes g now ev nd nt net = Except.ok (ns, dfl) := by
  rcases hnone with h | h
  all_goals simp only [computeNewTimes, hp]
  all_goals rw [if_neg (by simp [hnet])]
  · cases hstop : getDT ev.stop <;> simp only [h, hstop]
  · cases hstart : getDT ev.start <;> simp only [h, hstart]

/-- A truthy (nonempty) explicit new end time takes priority over both the
preserved duration and the default. -/
theorem computeNewTimes_explicit (g : String → Option DateTime) (now : DateTime)
    (ev : CalEvent) (nd nt : Option String) (net : String) (ns dfl ce ce2 : DateTime)
    (hne : net ≠ "")
    (hp : parse_date_time_opt g now nd nt = Except.ok (ns, dfl))
    (hpe : parse_date_time_opt g now nd (some net) = Except.ok (ce, ce2)) :
    computeNewTimes g now ev nd nt (some net) = Except.ok (ns, ce) := by
  simp only [computeNewTimes, hp]
  rw [if_pos (by simp [pyTruthy, hne])]
  simp only [hpe]

/-- C2: on both the confirmed-id path and the single-match path, a move
whose new end time is not truthy (absent or empty under `if new_end_time:`)
updates the event so that the new end minus the new start equals the
original duration exactly; the default +1h end (the second component of the
`parse_date_time` pair) is used only when a boundary is absent; a truthy
explicit new end time takes priority over both. -/
theorem C2_move_duration (g : String → Option DateTime) (now : DateTime) (st : Store)
    (fetched : List CalEvent) (q : EventQuery) (ev : CalEvent) (nd nt : Option String) :
    (∀ eid osdt oedt osoff oeoff dur ns dfl (net : Option String),
      pyTruthy net = false →
      q.event_id = some eid → st.findEv eid = some ev →
      ev.start = TS.dateTime osdt osoff → ev.stop = TS.dateTime oedt oeoff →
      tsubAware (oedt, oeoff) (osdt, osoff) = some dur →
      parse_date_time_opt g now nd nt = Except.ok (ns, dfl) →
      (move_event g now st fetched q nd nt net).1.success = true ∧
      (move_event g now st fetched q nd nt net).2 =
        st.updateEv { ev with
          start := TS.dateTime ns none,
          stop := TS.dateTime (addSeconds ns dur) none } ∧
      tsubAware (addSeconds ns dur, (none : Option Int)) (ns, (none : Option Int)) =
        some dur) ∧
    (∀ m osdt oedt osoff oeoff dur ns dfl (net : Option String),
      pyTruthy net = false →
      q.event_id = none → search_events fetched q.title q.time = [m] →
      st.findEv m.id = some ev →
      ev.start = TS.dateTime osdt osoff → ev.stop = TS.dateTime oedt oeoff →
      tsubAware (oedt, oeoff) (osdt, osoff) = some dur →
      parse_date_time_opt g now nd nt = Except.ok (ns, dfl) →
      (move_event g now st fetched q nd nt net).1.success = true ∧
      (move_event g now st fetched q nd nt net).2 =
        st.updateEv { ev with
          start := TS.dateTime ns none,
          stop := TS.dateTime (addSeconds ns dur) none } ∧
      tsubAware (addSeconds ns dur, (none : Option Int)) (ns, (none : Option Int)) =
        some dur) ∧
    (∀ eid ns dfl (net : Option String),
      pyTruthy net = false →
      q.event_id = some eid → st.findEv eid = some ev →
      (getDT ev.start = none ∨ getDT ev.stop = none) →
      parse_date_time_opt g now nd nt = Except.ok (ns, dfl) →
      (move_event g now st fetched q nd nt net).2 =
        st.updateEv { ev with
          start := TS.dateTime ns none,
          stop := TS.dateTime dfl none }) ∧
    (∀ eid (net : String) ns dfl ce ce2,
      net ≠ "" →
      q.event_id = some eid → st.findEv eid = some ev →
      parse_date_time_opt g now nd nt = Except.ok (ns, dfl) →
      parse_date_time_opt g now nd (some net) = Except.ok (ce, ce2) →
      (move_event g now st fetched q nd nt (some net)).2 =
        st.updateEv { ev with
          start := TS.dateTime ns none,
          stop := TS.dateTime ce none }) := by
  refine ⟨?_, ?_, ?_, ?_⟩
  · intro eid osdt oedt osoff oeoff dur ns dfl net hnet hq hf hs he hsub hp
    have hc := computeNewTimes_preserve g now ev nd nt net osdt oedt osoff oeoff dur ns dfl
      hnet hs he hsub hp
    refine ⟨?_, ?_, ?_⟩
    · simp only [move_event, hq, hf, hc]
    · simp only [move_event, hq, hf, hc]
    · simp only [tsubAware, toSeconds_addSeconds]
      congr 1
      omega
  · intro m osdt oedt osoff oeoff dur ns dfl net hnet hq hsearch hf hs he hsub hp
    have hc := computeNewTimes_preserve g now ev nd nt net osdt oedt osoff oeoff dur ns dfl
      hnet hs he hsub hp
    refine ⟨?_, ?_, ?_⟩
    · simp only [move_event, hq, hsearch, hf, hc]
    · simp only [move_event, hq, hsearch, hf, hc]
    · simp only [tsubAware, toSeconds_addSeconds]
      congr 1
      omega
  · intro eid ns dfl net hnet hq hf hnone hp
    have hc := computeNewTimes_default g now ev nd nt net ns dfl hnet hnone hp
    simp only [move_event, hq, hf, hc]
  · intro eid net ns dfl ce ce2 hne hq hf hp hpe
    have hc := computeNewTimes_explicit g now ev nd nt net ns dfl ce ce2 hne hp hpe
    simp only [move_event, hq, hf, hc]

/-- A 30-minute event (10:00-10:30) used to witness C2. -/
def c2ev : CalEvent :=
  ⟨"ev1", some "Call", TS.dateTime ⟨0, 10, 0, 0⟩ none,
    TS.dateTime ⟨0, 10, 30, 0⟩ none, none⟩

/-- A store holding only the 30-minute event. -/
def c2st : Store := ⟨[c2ev]⟩

/-- C2 witness: moving the 30-minute event to "tomorrow" at "3pm" with no
explicit end lands it at 15:00-15:30 next day — still exactly 1800 seconds
long. -/
theorem C2_witness :
    (move_event (fun _ => none) ⟨0, 8, 0, 0⟩ c2st []
      ⟨some "ev1", none, none, none⟩ (some "tomorrow") (some "3pm") none).1.success =
      true ∧
    (move_event (fun _ => none) ⟨0, 8, 0, 0⟩ c2st []
      ⟨some "ev1", none, none, none⟩ (some "tomorrow") (some "3pm") none).2 =
      c2st.updateEv { c2ev with
        start := TS.dateTime ⟨1, 15, 0, 0⟩ none,
        stop := TS.dateTime (addSeconds ⟨1, 15, 0, 0⟩ 1800) none } ∧
    tsubAware (addSeconds ⟨1, 15, 0, 0⟩ 1800, (none : Option Int))
      (⟨1, 15, 0, 0⟩, (none : Option Int)) = some 1800 :=
  (C2_move_duration (fun _ => none) ⟨0, 8, 0, 0⟩ c2st []
      ⟨some "ev1", none, none, none⟩ c2ev (some "tomorrow") (some "3pm")).1
    "ev1" ⟨0, 10, 0, 0⟩ ⟨0, 10, 30, 0⟩ none none 1800 ⟨1, 15, 0, 0⟩ ⟨1, 16, 0, 0⟩
    none rfl rfl (by decide) rfl rfl (by decide) rfl

/-! ### C9 — confirmation state machine transitions -/

/-- C9: with a pending disambiguation, (1) a recognized selection whose
ordinal is out of `[1, candidateCount]` returns the 400 error reply and
leaves both the store and the pending state intact; (2) an in-range
selection clears the pending state and re-invokes the executor — delete or
move only — with the chosen candidate's concrete id; (3) any message not
recognized as a selection discards the pending state unconditionally and
falls through to fresh command processing. -/
theorem C9_confirmation_state (g : String → Option DateTime) (now : DateTime)
    (fdStr ftStr : String → String) (fdTs ftTs : TS → String)
    (st : Store) (fetched : List CalEvent) (pa : PendingAction) (msg : String) :
    (∀ n, recognizedSelection msg = some n → ¬(1 ≤ n ∧ n ≤ pa.matchList.length) →
      handle_message g now fdStr ftStr fdTs ftTs st fetched (some pa) msg =
        (.api false
          ("Invalid selection. Please choose a number between 1 and " ++
            toString pa.matchList.length ++ ".") none 400, st, some pa)) ∧
    (∀ n, recognizedSelection msg = some n → 1 ≤ n → n ≤ pa.matchList.length →
      pa.action = "delete" →
      handle_message g now fdStr ftStr fdTs ftTs st fetched (some pa) msg =
        (.api true
          (generate_conversational_response fdStr ftStr fdTs ftTs pa.action pa.parsed_data
            (delete_event st fetched
              ⟨some (pa.matchList.getD (n - 1) dfltMatchItem).id, none, none, none⟩).1)
          (some (delete_event st fetched
            ⟨some (pa.matchList.getD (n - 1) dfltMatchItem).id, none, none, none⟩).1)
          200,
         (delete_event st fetched
            ⟨some (pa.matchList.getD (n - 1) dfltMatchItem).id, none, none, none⟩).2,
         none)) ∧
    (∀ n, recognizedSelection msg = some n → 1 ≤ n → n ≤ pa.matchList.length →
      pa.action = "move" →
      handle_message g now fdStr ftStr fdTs ftTs st fetched (some pa) msg =
        (.api true
          (generate_conversational_response fdStr ftStr fdTs ftTs pa.action pa.parsed_data
            (move_event g now st fetched
              ⟨some (pa.matchList.getD (n - 1) dfltMatchItem).id, none, none, none⟩
              pa.parsed_data.new_date pa.parsed_data.new_time
              pa.parsed_data.new_end_time).1)
          (some (move_event g now st fetched
            ⟨some (pa.matchList.getD (n - 1) dfltMatchItem).id, none, none, none⟩
            pa.parsed_data.new_date pa.parsed_data.new_time
            pa.parsed_data.new_end_time).1)
          200,
         (move_event g now st fetched
            ⟨some (pa.matchList.getD (n - 1) dfltMatchItem).id, none, none, none⟩
            pa.parsed_data.new_date pa.parsed_data.new_time
            pa.parsed_data.new_end_time).2,
         none)) ∧
    (recognizedSelection msg = none →
      handle_message g now fdStr ftStr fdTs ftTs st fetched (some pa) msg =
        (.fresh, st, none)) := by
  refine ⟨?_, ?_, ?_, ?_⟩
  · intro n hrec hrange
    simp only [handle_message, hrec]
    rw [if_neg hrange]
  · intro n hrec h1 h2 hact
    simp only [handle_message, hrec, hact]
    rw [if_pos ⟨h1, h2⟩, if_pos trivial]
  · intro n hrec h1 h2 hact
    simp only [handle_message, hrec, hact]
    rw [if_pos ⟨h1, h2⟩, if_neg (show ¬("move" = "delete") by decide), if_pos trivial]
  · intro hrec
    simp only [handle_message, hrec]

/-- The two candidate items of the C9 witness scenario. -/
def c9m1 : MatchItem :=
  ⟨"a", "Meeting", TS.dateTime ⟨0, 9, 0, 0⟩ none, TS.dateTime ⟨0, 10, 0, 0⟩ none,
    "9:00 AM - 10:00 AM"⟩

/-- Second candidate. -/
def c9m2 : MatchItem :=
  ⟨"b", "Meeting", TS.dateTime ⟨0, 10, 0, 0⟩ none, TS.dateTime ⟨0, 11, 0, 0⟩ none,
    "10:00 AM - 11:00 AM"⟩

/-- A pending delete with the two candidates. -/
def c9pa : PendingAction :=
  ⟨"delete", ⟨none, none, none, none, none, none, none⟩, [c9m1, c9m2]⟩

/-- The remote store backing the C9 witness. -/
def c9st : Store :=
  ⟨[⟨"a", some "Meeting", TS.dateTime ⟨0, 9, 0, 0⟩ none,
      TS.dateTime ⟨0, 10, 0, 0⟩ none, none⟩,
    ⟨"b", some "Meeting", TS.dateTime ⟨0, 10, 0, 0⟩ none,
      TS.dateTime ⟨0, 11, 0, 0⟩ none, none⟩]⟩

/-- C9 witness: with two candidates pending, "9" is recognized but out of
range — error reply, pending intact; "2" selects the second candidate and
re-invokes delete with id "b", clearing the pending state; "new plans for
thursday" is not a selection — pending cleared, fresh processing. -/
theorem C9_witness :
    handle_message (fun _ => none) ⟨0, 0, 0, 0⟩ (fun s => s) (fun s => s)
        (fun _ => "d") (fun _ => "t") c9st [] (some c9pa) "9" =
      (.api false "Invalid selection. Please choose a number between 1 and 2."
        none 400, c9st, some c9pa) ∧
    handle_message (fun _ => none) ⟨0, 0, 0, 0⟩ (fun s => s) (fun s => s)
        (fun _ => "d") (fun _ => "t") c9st [] (some c9pa) "2" =
      (.api true
        (generate_conversational_response (fun s => s) (fun s => s)
          (fun _ => "d") (fun _ => "t") c9pa.action c9pa.parsed_data
          (delete_event c9st []
            ⟨some (c9pa.matchList.getD 1 dfltMatchItem).id, none, none, none⟩).1)
        (some (delete_event c9st []
          ⟨some (c9pa.matchList.getD 1 dfltMatchItem).id, none, none, none⟩).1)
        200,
       (delete_event c9st []
          ⟨some (c9pa.matchList.getD 1 dfltMatchItem).id, none, none, none⟩).2,
       none) ∧
    handle_message (fun _ => none) ⟨0, 0, 0, 0⟩ (fun s => s) (fun s => s)
        (fun _ => "d") (fun _ => "t") c9st [] (some c9pa) "new plans for thursday" =
      (.fresh, c9st, none) := by
  have h := C9_confirmation_state (fun _ => none) ⟨0, 0, 0, 0⟩ (fun s => s) (fun s => s)
    (fun _ => "d") (fun _ => "t") c9st [] c9pa
  refine ⟨?_, ?_, ?_⟩
  · exact (h "9").1 9 (by decide) (by decide)
  · exact (h "2").2.1 2 (by decide) (by decide) (by decide) rfl
  · exact (h "new plans for thursday").2.2.2 (by decide)
